import Mathlib

/-!
Shallow embedding of the BHT-412-MM sequential rotor-balancing decision
engine from `src/rads/models/diagnosis.py`.

Modelling conventions:
* Python floats are modelled by `ℚ` (exact arithmetic); the single place the
  source uses transcendental functions (`math.cos` / `math.sin` inside
  `_vec`, used only by `_detail_letdown`) is modelled over `ℝ`/`ℂ`.
* Python `round` (banker's rounding, half-to-even) is `pyRound`; `int(...)`
  truncation toward zero is `pyInt`; `a % b` for floats is `pymod`.
* A measurement dict is `Meas`; a key that may be absent or hold `None` is
  `Option (Option ℚ)` (outer `none` = key absent, inner `none` = null).
  Python dict truthiness (`if not m`) is `Meas.truthy`; `other_keys` records
  that the dict holds further, unmodelled keys (which make it truthy).
* A `RunSet` (`Dict[str, dict]`) is an association list `List (String × Meas)`.
* `_load_cfg()` performs a file read; its parsed result is the `Config`
  argument threaded through every function below.  `load_cfg` separately
  models the loader's (absent) validation on a raw parsed JSON object.
* Divisions that can raise `ZeroDivisionError` in Python are modelled in the
  `Except String` monad via `pydiv`.
-/

namespace RADS

/-- Python `round` on an exact value: round half to even (banker's rounding). -/
def pyRound (q : ℚ) : ℤ :=
  let f := ⌊q⌋
  let r := q - (f : ℚ)
  if r < 1/2 then f
  else if 1/2 < r then f + 1
  else if f % 2 = 0 then f else f + 1

/-- Python `int(...)` on a float: truncation toward zero. -/
def pyInt (q : ℚ) : ℤ := if 0 ≤ q then ⌊q⌋ else ⌈q⌉

/-- Python `a % b` on floats (only ever used with `b = 360`). -/
def pymod (a b : ℚ) : ℚ := a - b * (⌊a / b⌋ : ℤ)

/-- Python float division, which raises `ZeroDivisionError` on a zero
denominator. -/
def pydiv (a b : ℚ) : Except String ℚ :=
  if b = 0 then .error "ZeroDivisionError: float division by zero"
  else .ok (a / b)

/-- Embeds `_round_to(x, step)`: `round(x / step) * step`, guarded for `step <= 0`. -/
def round_to (x step : ℚ) : ℚ :=
  if step ≤ 0 then x else (pyRound (x / step) : ℚ) * step

/-- Embeds `_ang_diff_deg(a, b)`: circular distance in degrees. -/
def ang_diff (a b : ℚ) : ℚ :=
  let d := pymod (a - b) 360
  let d := if 180 < d then 360 - d else d
  |d|

/-- Digit rendering of `n : ℤ` with `prec` decimal places and an explicit
sign flag, shared by the rational and real formatters. -/
def fmtNum (prec : Nat) (neg : Bool) (n : ℤ) : String :=
  let a := n.natAbs
  let p := (10 : ℕ) ^ prec
  let ip := toString (a / p)
  let sign := if neg then "-" else ""
  if prec = 0 then sign ++ ip
  else
    let fp := toString (a % p)
    let fp := String.mk (List.replicate (prec - fp.length) '0') ++ fp
    sign ++ ip ++ "." ++ fp

/-- Python fixed-point float formatting `f"{x:.<prec>f}"` on an exact value
(round half to even, sign taken from the unrounded value). -/
def fmtFixed (prec : Nat) (x : ℚ) : String :=
  fmtNum prec (decide (x < 0)) (pyRound (x * (10 : ℚ) ^ prec))

/-- Embeds `_deg_to_clock(deg)`: nearest half-hour clock label, `0° → 12:00`. -/
def deg_to_clock (deg : ℚ) : String :=
  let d := pymod deg 360
  let hours := d / 30
  let half := (pyRound (hours * 2) : ℚ) / 2
  let h0 := pyInt half % 12
  let h := if h0 = 0 then 12 else h0
  if |half - (pyInt half : ℚ)| < 1 / 1000000000 then toString h ++ ":00"
  else toString h ++ ":30"

/-- Decimal-digit parse of a character list (the effect of Python `int(...)`
on the all-digit strings it is given here). -/
def parseDigits (cs : List Char) : Option Nat :=
  if cs.isEmpty then none
  else if cs.all Char.isDigit then
    some (cs.foldl (fun n c => n * 10 + (c.toNat - 48)) 0)
  else none

/-- Embeds `_hub_split_hint(corr_deg)`: blade-pair hint from the clock hour.  The
source computes `int(clock.split(":")[0])`: the longest colon-free prefix of
the label, parsed as an integer; the label always starts with digits, so the
`getD 0` default is unreachable. -/
def hub_split_hint (corr_deg : ℚ) : String :=
  let clock := deg_to_clock corr_deg
  let h : ℤ := ((parseDigits (clock.data.takeWhile fun c => !(c = ':'))).map
    (Int.ofNat)).getD 0
  if h = 11 ∨ h = 12 ∨ h = 1 then "Split nearest: GRN/ORG"
  else if h = 2 ∨ h = 3 ∨ h = 4 then "Split nearest: RED/BLU"
  else if h = 5 ∨ h = 6 ∨ h = 7 then "Split nearest: BLU/ORG"
  else "Split nearest: GRN/RED"

/-- One chunk step of the `while len(s) > width` loop in `_wrap`
(width 38), on the character list of a line. -/
def chunk38 (cs : List Char) : List (List Char) :=
  if h : 38 < cs.length then (cs.take 38) :: chunk38 (cs.drop 38) else [cs]
termination_by cs.length
decreasing_by simp [List.length_drop]; omega

/-- Embeds `_wrap` applied to a single line. -/
def wrapLine (s : String) : List String :=
  (chunk38 s.data).map fun cs => String.mk cs

/-- Embeds `_wrap(lines)`: naive wrap at width 38. -/
def wrap (lines : List String) : List String :=
  (lines.map wrapLine).flatten

/-- The four-blade `track_rel_mm` dict (a key per blade colour, possibly
absent). -/
structure TrackMap where
  red : Option ℚ
  blu : Option ℚ
  org : Option ℚ
  grn : Option ℚ
deriving DecidableEq

/-- A measurement dict.  Each numeric key is absent (`none`), null
(`some none`) or a number (`some (some q)`); `other_keys` records further,
unmodelled dict keys (they only influence truthiness). -/
structure Meas where
  track_rel_mm : Option (Option TrackMap)
  lat_1r_ips : Option (Option ℚ)
  lat_1r_phase_deg : Option (Option ℚ)
  vib_1r_ips : Option (Option ℚ)
  vib_1r_phase_deg : Option (Option ℚ)
  vert_1r_ips : Option (Option ℚ)
  vert_1r_phase_deg : Option (Option ℚ)
  other_keys : Bool
deriving DecidableEq

/-- Python truthiness of the measurement dict (`if not m`). -/
def Meas.truthy (m : Meas) : Bool :=
  m.track_rel_mm.isSome || m.lat_1r_ips.isSome || m.lat_1r_phase_deg.isSome ||
  m.vib_1r_ips.isSome || m.vib_1r_phase_deg.isSome ||
  m.vert_1r_ips.isSome || m.vert_1r_phase_deg.isSome || m.other_keys

/-- Python `v or 0.0` applied to a possibly-null numeric value. -/
def pyOr0 : Option ℚ → ℚ
  | none => 0
  | some x => x

/-- Embeds `m.get("lat_1r_ips", m.get("vib_1r_ips", 0.0)) or 0.0`. -/
def Meas.lat_amp (m : Meas) : ℚ :=
  match m.lat_1r_ips with
  | some v => pyOr0 v
  | none =>
    match m.vib_1r_ips with
    | some v => pyOr0 v
    | none => 0

/-- Embeds `m.get("lat_1r_phase_deg", m.get("vib_1r_phase_deg", 0.0)) or 0.0`. -/
def Meas.lat_phase (m : Meas) : ℚ :=
  match m.lat_1r_phase_deg with
  | some v => pyOr0 v
  | none =>
    match m.vib_1r_phase_deg with
    | some v => pyOr0 v
    | none => 0

/-- Embeds `m.get("vert_1r_ips", 0.0) or 0.0`. -/
def Meas.vert_amp (m : Meas) : ℚ :=
  match m.vert_1r_ips with
  | some v => pyOr0 v
  | none => 0

/-- Embeds `m.get("vert_1r_phase_deg", 0.0) or 0.0`. -/
def Meas.vert_phase (m : Meas) : ℚ :=
  match m.vert_1r_phase_deg with
  | some v => pyOr0 v
  | none => 0

/-- Embeds `m.get("track_rel_mm", {}) or {}` (absent, null and empty all behave as
the empty dict). -/
def Meas.track_map (m : Meas) : TrackMap :=
  match m.track_rel_mm with
  | some (some t) => t
  | _ => ⟨none, none, none, none⟩

/-- The parsed `bht412_mm.json` configuration (`state_map` is flattened into
one field per canonical stage id, `sm_*`). -/
structure Config where
  track_pair_tol_in : ℚ
  sep_tol_in : ℚ
  pair_separation_in : ℚ
  pitch_link_flat_in : ℚ
  ground_ips_limit : ℚ
  hover_ips_limit : ℚ
  kias120_vert_limit : ℚ
  letdown_ips_limit : ℚ
  hub_weight_sensitivity_ips_per_100g : ℚ
  product_weights_per_ips : ℚ
  vertical_tab_ips_per_deg : ℚ
  blade_azimuth_deg : List (String × ℚ)
  sm_track60 : List String
  sm_ground100 : List String
  sm_hover : List String
  sm_kias120 : List String
  sm_letdown : List String
deriving DecidableEq

/-- A `RunSet`: regime-name → measurement dict. -/
def RunSet := List (String × Meas)

/-- Embeds `_pick_state(runs, candidates)`: first alias present in the run set. -/
def pick_state (runs : RunSet) : List String → Option Meas
  | [] => none
  | n :: rest =>
    match List.lookup n runs with
    | some m => some m
    | none => pick_state runs rest

/-- Embeds `_pick_state` followed by the callers' `if not m` truthiness test (both
a missing key and a falsy, empty dict count as no measurement). -/
def resolve (runs : RunSet) (names : List String) : Option Meas :=
  match pick_state runs names with
  | some m => if m.truthy then some m else none
  | none => none

/-- The loop body of `_nearest_blade`: keep the first blade whose circular
distance to the phase strictly improves on the best so far. -/
def nearest_step (phase_deg : ℚ) (acc : Option String × ℚ) (p : String × ℚ) :
    Option String × ℚ :=
  let d := ang_diff phase_deg p.2
  if d < acc.2 then (some p.1, d) else acc

/-- Embeds `_nearest_blade(phase_deg, blade_az)` (`best = None`, `best_d = 1e9`). -/
def nearest_blade (phase_deg : ℚ) (blade_az : List (String × ℚ)) : String :=
  if blade_az.isEmpty then "(BLADE)"
  else
    let best := blade_az.foldl (nearest_step phase_deg)
      ((none : Option String), (1000000000 : ℚ))
    match best.1 with
    | some b => b
    | none => "(BLADE)"

/-- Stage status strings (`"LOCKED" | "NEEDS" | "DONE" | "MISSING"`). -/
inductive Status where
  | LOCKED
  | NEEDS
  | DONE
  | MISSING
deriving DecidableEq

/-- The status's literal string, used in `f"Status: ..."` lines. -/
def Status.str : Status → String
  | .LOCKED => "LOCKED"
  | .NEEDS => "NEEDS"
  | .DONE => "DONE"
  | .MISSING => "MISSING"

/-- Embeds `StepSummary` dataclass. -/
structure StepSummary where
  step_id : String
  label : String
  status : Status
deriving DecidableEq

/-- Intermediate quantities of `_track_checks` (the `info` dict). -/
structure TrackInfo where
  red_in : ℚ
  blu_in : ℚ
  org_in : ℚ
  grn_in : ℚ
  rb_diff_in : ℚ
  og_diff_in : ℚ
  sep_in : ℚ
deriving DecidableEq

/-- Embeds `_track_checks(m, cfg)`: heights in inches, pair differences, pair
separation, and the combined tolerance test. -/
def track_checks (m : Meas) (cfg : Config) : Bool × TrackInfo :=
  let t := m.track_map
  let red := (t.red.getD 0) / (25.4 : ℚ)
  let blu := (t.blu.getD 0) / (25.4 : ℚ)
  let org := (t.org.getD 0) / (25.4 : ℚ)
  let grn := (t.grn.getD 0) / (25.4 : ℚ)
  let rb_diff := red - blu
  let og_diff := org - grn
  let sep := (red + blu) / 2 - (org + grn) / 2
  let ok := decide (|rb_diff| ≤ cfg.track_pair_tol_in) &&
    decide (|og_diff| ≤ cfg.track_pair_tol_in) &&
    decide (|sep - cfg.pair_separation_in| ≤ cfg.sep_tol_in)
  (ok, ⟨red, blu, org, grn, rb_diff, og_diff, sep⟩)

/-- Embeds `_status_track60`. -/
def status_track60 (runs : RunSet) (cfg : Config) : Status :=
  match resolve runs cfg.sm_track60 with
  | none => .MISSING
  | some m => if (track_checks m cfg).1 then .DONE else .NEEDS

/-- Embeds `_status_ground100`. -/
def status_ground100 (runs : RunSet) (cfg : Config) (prev_ok : Bool) : Status :=
  if !prev_ok then .LOCKED
  else
    match resolve runs cfg.sm_ground100 with
    | none => .MISSING
    | some m => if m.lat_amp < cfg.ground_ips_limit then .DONE else .NEEDS

/-- Embeds `_status_hover`. -/
def status_hover (runs : RunSet) (cfg : Config) (prev_ok : Bool) : Status :=
  if !prev_ok then .LOCKED
  else
    match resolve runs cfg.sm_hover with
    | none => .MISSING
    | some m => if m.lat_amp < cfg.hover_ips_limit then .DONE else .NEEDS

/-- Embeds `_status_120k`. -/
def status_120k (runs : RunSet) (cfg : Config) (prev_ok : Bool) : Status :=
  if !prev_ok then .LOCKED
  else
    match resolve runs cfg.sm_kias120 with
    | none => .MISSING
    | some m => if m.vert_amp < cfg.kias120_vert_limit then .DONE else .NEEDS

/-- Embeds `_status_letdown`. -/
def status_letdown (runs : RunSet) (cfg : Config) (prev_ok : Bool) : Status :=
  if !prev_ok then .LOCKED
  else
    match resolve runs cfg.sm_letdown with
    | none => .MISSING
    | some m => if m.lat_amp < cfg.letdown_ips_limit then .DONE else .NEEDS

/-- Embeds `step_summaries_for_bht412(runs)`; the `cfg` argument stands for the
`_load_cfg()` result. -/
def step_summaries (runs : RunSet) (cfg : Config) : List StepSummary :=
  let s1 := status_track60 runs cfg
  let s2 := status_ground100 runs cfg (decide (s1 = .DONE))
  let s3 := status_hover runs cfg (decide (s1 = .DONE ∧ s2 = .DONE))
  let s4 := status_120k runs cfg (decide (s1 = .DONE ∧ s2 = .DONE ∧ s3 = .DONE))
  let s5 := status_letdown runs cfg
    (decide (s1 = .DONE ∧ s2 = .DONE ∧ s3 = .DONE ∧ s4 = .DONE))
  [⟨"track60", "GND 60% NR  Track Mech", s1⟩,
   ⟨"ground100", "GND 100% NR  Mass Bal", s2⟩,
   ⟨"hover", "HOVER  Lateral Decision", s3⟩,
   ⟨"kias120", "120 KIAS  Vertical Smooth", s4⟩,
   ⟨"letdown", "LETDOWN  Final Trim", s5⟩]

/-- Embeds `_detail_track60(runs, cfg)`.  Divisions by the configured
`pitch_link_flat_in` increment can raise `ZeroDivisionError`, hence the
`Except` result. -/
def detail_track60 (runs : RunSet) (cfg : Config) :
    Except String (String × List String) :=
  match resolve runs cfg.sm_track60 with
  | none => .ok ("60% NR (Track)", ["No 60% NR track measurement."])
  | some m =>
    let oi := track_checks m cfg
    let ok := oi.1
    let info := oi.2
    let title := "60% NR - Track Mechanical"
    let lines := ["Status: " ++ (if ok then "DONE" else "NEEDS"),
      "Pair sep: " ++ fmtFixed 2 info.sep_in ++ " in (target " ++
        fmtFixed 2 cfg.pair_separation_in ++ ")",
      "RB diff : " ++ fmtFixed 2 info.rb_diff_in ++ " in",
      "OG diff : " ++ fmtFixed 2 info.og_diff_in ++ " in"]
    if ok then .ok (title, wrap (lines ++ ["No correction required."]))
    else do
      let flat_in := cfg.pitch_link_flat_in
      let tol := cfg.track_pair_tol_in
      let sep_tol := cfg.sep_tol_in
      let target_sep := cfg.pair_separation_in
      let red := info.red_in
      let blu := info.blu_in
      let l1 ←
        if tol < |red - blu| then
          if blu < red then do
            let q ← pydiv |red - blu| flat_in
            pure ["Lengthen BLU pitch link: +" ++ toString (max 1 (pyRound q)) ++ " flats"]
          else do
            let q ← pydiv |red - blu| flat_in
            pure ["Lengthen RED pitch link: +" ++ toString (max 1 (pyRound q)) ++ " flats"]
        else pure []
      let org := info.org_in
      let grn := info.grn_in
      let l2 ←
        if tol < |org - grn| then
          if grn < org then do
            let q ← pydiv |org - grn| flat_in
            pure ["Lengthen GRN pitch link: +" ++ toString (max 1 (pyRound q)) ++ " flats"]
          else do
            let q ← pydiv |org - grn| flat_in
            pure ["Lengthen ORG pitch link: +" ++ toString (max 1 (pyRound q)) ++ " flats"]
        else pure []
      let l3 ←
        if sep_tol < |info.sep_in - target_sep| then do
          let delta := target_sep - info.sep_in
          let q ← pydiv |delta| flat_in
          let flats := max 1 (pyRound q)
          if 0 < delta then
            pure ["Move ORG/GRN pair DOWN: shorten both " ++ toString flats ++ " flats"]
          else
            pure ["Move ORG/GRN pair UP: lengthen both " ++ toString flats ++ " flats"]
        else pure []
      .ok (title, wrap (lines ++ l1 ++ l2 ++ l3 ++ ["Re-measure 60NR to validate."]))

/-- Embeds `_detail_ground100(runs, cfg)`.  The division by the hub-weight
sensitivity is NOT guarded in the source. -/
def detail_ground100 (runs : RunSet) (cfg : Config) :
    Except String (String × List String) :=
  match resolve runs cfg.sm_ground100 with
  | none => .ok ("100% NR (Ground Bal)", ["No 100% NR ground measurement."])
  | some m =>
    let amp := m.lat_amp
    let ph := m.lat_phase
    let limit := cfg.ground_ips_limit
    let ok := decide (amp < limit)
    let title := "100% NR - Ground Mass Balance"
    let lines := ["Status: " ++ (if ok then "DONE" else "NEEDS"),
      "LAT 1R: " ++ fmtFixed 3 amp ++ " ips @ " ++ fmtFixed 1 ph ++ "°",
      "Limit : < " ++ fmtFixed 2 limit ++ " ips"]
    if ok then .ok (title, wrap (lines ++ ["No correction required."]))
    else do
      let q ← pydiv amp cfg.hub_weight_sensitivity_ips_per_100g
      let grams := round_to (q * 100) 10
      let corr_deg := pymod (ph + 180) 360
      let corr_clock := deg_to_clock corr_deg
      .ok (title, wrap (lines ++
        ["Add HUB weight: ~" ++ toString (pyInt grams) ++ " g",
         "Place @ " ++ corr_clock ++ " (180° from peak)",
         hub_split_hint corr_deg,
         "Re-measure 100NR to validate."]))

/-- Embeds `_detail_hover(runs, cfg)`: mass-vs-aero decision against the ground
reference phase; with no ground reference the angle difference is set to
`999` (maximal). -/
def detail_hover (runs : RunSet) (cfg : Config) :
    Except String (String × List String) :=
  let gnd := resolve runs cfg.sm_ground100
  match resolve runs cfg.sm_hover with
  | none => .ok ("Hover (Decision)", ["No hover measurement."])
  | some hover =>
    let amp_h := hover.lat_amp
    let ph_h := hover.lat_phase
    let limit := cfg.hover_ips_limit
    let ok := decide (amp_h < limit)
    let title := "Hover - Product Balance vs Roll"
    let lines := ["Status: " ++ (if ok then "DONE" else "NEEDS"),
      "LAT 1R: " ++ fmtFixed 3 amp_h ++ " ips @ " ++ fmtFixed 1 ph_h ++ "°",
      "Limit : < " ++ fmtFixed 2 limit ++ " ips"]
    if ok then .ok (title, wrap (lines ++ ["No correction required."]))
    else
      let dl : ℚ × List String :=
        match gnd with
        | some g =>
          let ph_g := g.lat_phase
          let d := ang_diff ph_h ph_g
          (d, ["Angle vs Ground: Δ=" ++ fmtFixed 0 d ++ "°"])
        | none => (999, ["No Ground reference available"])
      let d := dl.1
      if d ≤ 30 then do
        let q ← pydiv amp_h cfg.hub_weight_sensitivity_ips_per_100g
        let grams := round_to (q * 100) 10
        let corr_deg := pymod (ph_h + 180) 360
        .ok (title, wrap (lines ++ dl.2 ++
          ["Decision: MASS (Hub) - keep ground bal",
           "Add HUB weight: ~" ++ toString (pyInt grams) ++ " g",
           "Place @ " ++ deg_to_clock corr_deg,
           hub_split_hint corr_deg,
           "Re-measure HOVER to validate."]))
      else
        let units := max 1 (pyRound (amp_h * cfg.product_weights_per_ips))
        let corr_deg := pymod (ph_h + 180) 360
        .ok (title, wrap (lines ++ dl.2 ++
          ["Decision: AERO (Blade) - product bal",
           "Add TIP weights: ~" ++ toString units ++ " units",
           "Place @ " ++ deg_to_clock corr_deg,
           "NOTE: tip weights are ~11x hub effect",
           "      and will affect ground balance",
           "Re-measure HOVER to validate."]))

/-- Embeds `_detail_120k(runs, cfg, option_120k)`.  The division by the vertical
tab sensitivity IS guarded in the source (`if ips_per_deg > 0 else 0.0`). -/
def detail_120k (runs : RunSet) (cfg : Config) (option_120k : ℤ) :
    Except String (String × List String) :=
  match resolve runs cfg.sm_kias120 with
  | none => .ok ("120 KIAS (Vert)", ["No 120 KIAS measurement."])
  | some m =>
    let amp := m.vert_amp
    let ph := m.vert_phase
    let limit := cfg.kias120_vert_limit
    let ok := decide (amp < limit)
    let title := "120 KIAS - Vertical Smoother"
    let lines := ["Status: " ++ (if ok then "DONE" else "NEEDS"),
      "VRT 1R: " ++ fmtFixed 3 amp ++ " ips @ " ++ fmtFixed 1 ph ++ "°",
      "Limit : < " ++ fmtFixed 2 limit ++ " ips"]
    if ok then .ok (title, wrap (lines ++ ["No correction required."]))
    else
      let ips_per_deg := cfg.vertical_tab_ips_per_deg
      let deg := if 0 < ips_per_deg then amp / ips_per_deg else 0
      let deg := max (0.2 : ℚ) (round_to deg (0.1 : ℚ))
      let blade := nearest_blade ph cfg.blade_azimuth_deg
      let opp_blade := nearest_blade (pymod (ph + 180) 360) cfg.blade_azimuth_deg
      let tail :=
        if option_120k = 1 then
          ["Option 1 selected",
           "Bend OUTBD TAB of " ++ blade ++ " UP",
           "Amount: " ++ fmtFixed 1 deg ++ "°"]
        else
          ["Option 2 selected",
           "Bend OUTBD TAB of " ++ opp_blade ++ " DOWN",
           "Amount: " ++ fmtFixed 1 deg ++ "°"]
      .ok (title, wrap (lines ++ tail ++ ["Re-measure 120K to validate."]))

/-- Embeds `_vec(amp, ph_deg)`: `complex(amp * cos(radians(ph)), amp * sin(radians(ph)))`. -/
noncomputable def vec (amp ph_deg : ℚ) : ℂ :=
  ⟨(amp : ℝ) * Real.cos ((ph_deg : ℝ) * Real.pi / 180),
   (amp : ℝ) * Real.sin ((ph_deg : ℝ) * Real.pi / 180)⟩

/-- Python `round` on a real value (round half to even), for quantities the
source computes with `math` functions. -/
noncomputable def pyRoundR (x : ℝ) : ℤ :=
  let f := ⌊x⌋
  let r := x - (f : ℝ)
  if r < 1/2 then f
  else if 1/2 < r then f + 1
  else if f % 2 = 0 then f else f + 1

/-- Python fixed-point formatting of a real value (the `abs(...)` magnitudes
in `_detail_letdown`). -/
noncomputable def fmtFixedR (prec : Nat) (x : ℝ) : String :=
  fmtNum prec (decide (x < 0)) (pyRoundR (x * (10 : ℝ) ^ prec))

/-- Embeds `_detail_letdown(runs, cfg)`: hub-weight suggestion plus the phasor
"what-if" check against the ground-100 limit, with a 50% compromise when the
predicted ground amplitude exceeds it. -/
noncomputable def detail_letdown (runs : RunSet) (cfg : Config) :
    Except String (String × List String) :=
  let gnd := resolve runs cfg.sm_ground100
  match resolve runs cfg.sm_letdown with
  | none => .ok ("Letdown (Trim)", ["No letdown measurement."])
  | some m =>
    let amp := m.lat_amp
    let ph := m.lat_phase
    let limit := cfg.letdown_ips_limit
    let ok := decide (amp < limit)
    let title := "Letdown - Final Trim"
    let lines := ["Status: " ++ (if ok then "DONE" else "NEEDS"),
      "LAT 1R: " ++ fmtFixed 3 amp ++ " ips @ " ++ fmtFixed 1 ph ++ "°",
      "Limit : < " ++ fmtFixed 2 limit ++ " ips"]
    if ok then .ok (title, wrap (lines ++ ["No correction required."]))
    else do
      let ground_limit := cfg.ground_ips_limit
      let q ← pydiv amp cfg.hub_weight_sensitivity_ips_per_100g
      let corr_deg := pymod (ph + 180) 360
      let grams_full := round_to (q * 100) 10
      let lines := lines ++
        ["Suggested HUB weight: ~" ++ toString (pyInt grams_full) ++ " g",
         "Place @ " ++ deg_to_clock corr_deg,
         hub_split_hint corr_deg]
      let lines :=
        match gnd with
        | some g =>
          let vg := vec g.lat_amp g.lat_phase
          let c_full := vec amp corr_deg
          let g_new := Complex.abs (vg + c_full)
          let lines := lines ++
            ["Check 100NR: predicted " ++ fmtFixedR 3 g_new ++ " ips",
             "Ground limit: " ++ fmtFixed 2 ground_limit ++ " ips"]
          if ground_limit < g_new then
            let grams_half := round_to (grams_full * (0.5 : ℚ)) 10
            let g_half := Complex.abs (vg + c_full * ((0.5 : ℝ) : ℂ))
            let l_half := Complex.abs (vec amp ph + c_full * ((0.5 : ℝ) : ℂ))
            lines ++
              ["Safety compromise triggered",
               "Use 50%: ~" ++ toString (pyInt grams_half) ++ " g",
               "Pred 100NR: " ++ fmtFixedR 3 g_half ++ " ips",
               "Pred LET:  " ++ fmtFixedR 3 l_half ++ " ips"]
          else lines
        | none => lines
      .ok (title, wrap (lines ++ ["Re-measure LETDOWN to validate."]))

/-- The five canonical stage ids, in workflow order. -/
def known_steps : List String :=
  ["track60", "ground100", "hover", "kias120", "letdown"]

/-- The LOCKED/MISSING title table of `step_detail_for_bht412`. -/
def step_titles : List (String × String) :=
  [("track60", "60% NR (Track)"), ("ground100", "100% NR (Ground Bal)"),
   ("hover", "Hover (Decision)"), ("kias120", "120 KIAS (Vert)"),
   ("letdown", "Letdown (Trim)")]

/-- Embeds `summaries.get(step_id, "MISSING")` in `step_detail_for_bht412`. -/
def resolved_status (runs : RunSet) (cfg : Config) (step_id : String) : Status :=
  (((step_summaries runs cfg).map fun s => (s.step_id, s.status)).lookup
    step_id).getD .MISSING

/-- Embeds `step_detail_for_bht412(runs, step_id, option_120k)`. -/
noncomputable def step_detail (runs : RunSet) (cfg : Config) (step_id : String)
    (option_120k : ℤ) : Except String (String × List String) :=
  let status := resolved_status runs cfg step_id
  if status = .LOCKED ∨ status = .MISSING then
    let title := (step_titles.lookup step_id).getD "DIAGS"
    let lines :=
      if status = .MISSING then
        ["No measurement for this step.", "Go to MEASURE and run the regime."]
      else
        ["LOCKED: complete previous steps", "and re-measure until they are DONE."]
    .ok (title, wrap lines)
  else if step_id = "track60" then detail_track60 runs cfg
  else if step_id = "ground100" then detail_ground100 runs cfg
  else if step_id = "hover" then detail_hover runs cfg
  else if step_id = "kias120" then detail_120k runs cfg option_120k
  else if step_id = "letdown" then detail_letdown runs cfg
  else .ok ("DIAGS", ["Unknown step"])

/-- The raw JSON object handed back by `_load_cfg`: string keys mapped to a
numeric value (`some q`) or a non-numeric one (`none`). -/
structure RawConfig where
  entries : List (String × Option ℚ)
deriving DecidableEq

/-- Embeds `_load_cfg()`: the source opens `bht412_mm.json` and returns
`json.load(f)` unchanged — no key presence check, no type validation, no
caching and no `ConfigError` (no such class exists in the repository).  The
file read itself is the caller's input here. -/
def load_cfg (raw : RawConfig) : Except String RawConfig := .ok raw

/-- The config keys the specification declares required. -/
def required_cfg_keys : List String :=
  ["track_pair_tol_in", "sep_tol_in", "pair_separation_in",
   "pitch_link_flat_in", "ground_ips_limit", "hover_ips_limit",
   "kias120_vert_limit", "letdown_ips_limit",
   "hub_weight_sensitivity_ips_per_100g", "product_weights_per_ips",
   "vertical_tab_ips_per_deg", "blade_azimuth_deg", "state_map"]

/-- The status list of the five summaries, indexed 0..4 in stage order. -/
def statusAt (runs : RunSet) (cfg : Config) (i : Fin 5) : Status :=
  ((step_summaries runs cfg).map StepSummary.status).getD i.val .MISSING

/-- An empty measurement dict. -/
def emptyMeas : Meas := ⟨none, none, none, none, none, none, none, false⟩

/-- A measurement carrying only a lateral 1/rev amplitude and phase. -/
def latMeas (amp ph : ℚ) : Meas :=
  ⟨none, some (some amp), some (some ph), none, none, none, none, false⟩

/-- A measurement carrying only a vertical 1/rev amplitude and phase. -/
def vertMeas (amp ph : ℚ) : Meas :=
  ⟨none, none, none, none, none, some (some amp), some (some ph), false⟩

/-- A measurement carrying only the four-blade relative track heights (mm). -/
def trackMeas (r b o g : ℚ) : Meas :=
  ⟨some (some ⟨some r, some b, some o, some g⟩),
   none, none, none, none, none, none, false⟩

/-- A concrete configuration for the witness scenarios (spec scenario
values: ground limit 0.15 ips, hub sensitivity 0.11 ips/100g). -/
def cfgW : Config :=
  ⟨0.1, 0.1, 0.2, 0.05, 0.15, 0.2, 0.2, 0.2, 0.11, 40, 0.07,
   [("RED", 0), ("BLU", 180), ("ORG", 90), ("GRN", 270)],
   ["track60"], ["ground100"], ["hover"], ["kias120"], ["letdown"]⟩

/-- Variant of `cfgW` with a zero hub-weight sensitivity and a zero
vertical-tab sensitivity (the bad-config scenarios). -/
def cfgZ : Config :=
  ⟨0.1, 0.1, 0.2, 0.05, 0.15, 0.2, 0.2, 0.2, 0, 40, 0,
   [("RED", 0), ("BLU", 180), ("ORG", 90), ("GRN", 270)],
   ["track60"], ["ground100"], ["hover"], ["kias120"], ["letdown"]⟩

/-- A run set whose track60 measurement passes all three checks. -/
def runsT2 : RunSet := [("track60", trackMeas 2.54 2.54 (-2.54) (-2.54))]

/-- Spec scenario 1: ground-100 amplitude 0.22 ips at phase 70°. -/
def runsG3 : RunSet := [("ground100", latMeas 0.22 70)]

/-- Spec scenario 3: hover 0.25 ips @ 170° against ground phase 20°. -/
def runsH4 : RunSet :=
  [("hover", latMeas 0.25 170), ("ground100", latMeas 0.1 20)]

/-- A hover measurement with no ground-100 reference. -/
def runsH4b : RunSet := [("hover", latMeas 0.25 170)]

/-- A 120-KIAS measurement needing correction (0.3 ips @ 10°). -/
def runsK6 : RunSet := [("kias120", vertMeas 0.3 10)]

/-- Spec scenario 4: letdown 0.3 ips @ 180° over ground 0.1 ips @ 0°; the
predicted ground amplitude 0.4 ips exceeds the 0.15 ips ground limit. -/
def runsL5 : RunSet :=
  [("letdown", latMeas 0.3 180), ("ground100", latMeas 0.1 0)]

/-- A measurement dict that is truthy but carries a null lateral amplitude,
no legacy alias, and a zero vertical amplitude. -/
def mNull : Meas :=
  ⟨none, some none, some (some 45), none, none, some (some 0), none, true⟩

/-- Null-amplitude measurements attached to every post-track60 stage. -/
def runsN10 : RunSet :=
  [("ground100", mNull), ("hover", mNull), ("kias120", mNull), ("letdown", mNull)]

/-- A run set whose only key is not an alias of any stage. -/
def runsJunk : RunSet := [("junk", latMeas 1 0)]

/-- A track60 measurement whose RED/BLU pair difference (0.2 in) exceeds the
0.1 in pair tolerance. -/
def runsT2b : RunSet := [("track60", trackMeas 5.08 0 (-2.54) (-2.54))]

/-- The first stage status (`s1` in `step_summaries_for_bht412`). -/
def stage1 (runs : RunSet) (cfg : Config) : Status := status_track60 runs cfg

/-- The second stage status (`s2`). -/
def stage2 (runs : RunSet) (cfg : Config) : Status :=
  status_ground100 runs cfg (decide (stage1 runs cfg = .DONE))

/-- The third stage status (`s3`). -/
def stage3 (runs : RunSet) (cfg : Config) : Status :=
  status_hover runs cfg
    (decide (stage1 runs cfg = .DONE ∧ stage2 runs cfg = .DONE))

/-- The fourth stage status (`s4`). -/
def stage4 (runs : RunSet) (cfg : Config) : Status :=
  status_120k runs cfg
    (decide (stage1 runs cfg = .DONE ∧ stage2 runs cfg = .DONE ∧
      stage3 runs cfg = .DONE))

/-- The fifth stage status (`s5`). -/
def stage5 (runs : RunSet) (cfg : Config) : Status :=
  status_letdown runs cfg
    (decide (stage1 runs cfg = .DONE ∧ stage2 runs cfg = .DONE ∧
      stage3 runs cfg = .DONE ∧ stage4 runs cfg = .DONE))

theorem status_track60_ne_locked (runs : RunSet) (cfg : Config) :
    status_track60 runs cfg ≠ Status.LOCKED := by
  unfold status_track60
  rcases h : resolve runs cfg.sm_track60 with _ | m <;> simp [h]
  split <;> simp

theorem status_ground100_locked_iff (runs : RunSet) (cfg : Config) (b : Bool) :
    status_ground100 runs cfg b = Status.LOCKED ↔ b = false := by
  cases b
  · simp [status_ground100]
  · simp only [status_ground100, Bool.not_true, Bool.false_eq_true, iff_false]
    rcases h : resolve runs cfg.sm_ground100 with _ | m <;> simp [h]
    split <;> simp

theorem status_hover_locked_iff (runs : RunSet) (cfg : Config) (b : Bool) :
    status_hover runs cfg b = Status.LOCKED ↔ b = false := by
  cases b
  · simp [status_hover]
  · simp only [status_hover, Bool.not_true, Bool.false_eq_true, iff_false]
    rcases h : resolve runs cfg.sm_hover with _ | m <;> simp [h]
    split <;> simp

theorem status_120k_locked_iff (runs : RunSet) (cfg : Config) (b : Bool) :
    status_120k runs cfg b = Status.LOCKED ↔ b = false := by
  cases b
  · simp [status_120k]
  · simp only [status_120k, Bool.not_true, Bool.false_eq_true, iff_false]
    rcases h : resolve runs cfg.sm_kias120 with _ | m <;> simp [h]
    split <;> simp

theorem status_letdown_locked_iff (runs : RunSet) (cfg : Config) (b : Bool) :
    status_letdown runs cfg b = Status.LOCKED ↔ b = false := by
  cases b
  · simp [status_letdown]
  · simp only [status_letdown, Bool.not_true, Bool.false_eq_true, iff_false]
    rcases h : resolve runs cfg.sm_letdown with _ | m <;> simp [h]
    split <;> simp

set_option maxHeartbeats 1600000 in
theorem status_chain_locked (t1 t2 t3 t4 t5 : Status)
    (h1 : t1 ≠ Status.LOCKED)
    (h2 : t2 = Status.LOCKED ↔ ¬(t1 = Status.DONE))
    (h3 : t3 = Status.LOCKED ↔ ¬(t1 = Status.DONE ∧ t2 = Status.DONE))
    (h4 : t4 = Status.LOCKED ↔
      ¬(t1 = Status.DONE ∧ t2 = Status.DONE ∧ t3 = Status.DONE))
    (h5 : t5 = Status.LOCKED ↔
      ¬(t1 = Status.DONE ∧ t2 = Status.DONE ∧ t3 = Status.DONE ∧
        t4 = Status.DONE)) :
    (∀ i j : Fin 5, i < j →
      [t1, t2, t3, t4, t5].getD i.val Status.MISSING ≠ Status.DONE →
      [t1, t2, t3, t4, t5].getD j.val Status.MISSING = Status.LOCKED) ∧
    (∀ i : Fin 5,
      [t1, t2, t3, t4, t5].getD i.val Status.MISSING = Status.LOCKED ↔
      ∃ k : Fin 5, k < i ∧
        [t1, t2, t3, t4, t5].getD k.val Status.MISSING ≠ Status.DONE) := by
  revert h1 h2 h3 h4 h5
  cases t1 <;> cases t2 <;> cases t3 <;> cases t4 <;> cases t5 <;> decide

/-- C1: the 5-element summary list respects the fixed stage order
track60 → ground100 → hover → kias120 → letdown: if stage i is not DONE
then every later stage is LOCKED, and a stage is LOCKED exactly when some
preceding stage is not DONE (so track60 is never LOCKED). -/
theorem C1_stage_order_gating (runs : RunSet) (cfg : Config) :
    (∀ i j : Fin 5, i < j → statusAt runs cfg i ≠ Status.DONE →
      statusAt runs cfg j = Status.LOCKED) ∧
    (∀ i : Fin 5, statusAt runs cfg i = Status.LOCKED ↔
      ∃ k : Fin 5, k < i ∧ statusAt runs cfg k ≠ Status.DONE) := by
  have key : ∀ i : Fin 5, statusAt runs cfg i =
      [stage1 runs cfg, stage2 runs cfg, stage3 runs cfg, stage4 runs cfg,
        stage5 runs cfg].getD i.val Status.MISSING := fun _ => rfl
  have h1 : stage1 runs cfg ≠ Status.LOCKED := status_track60_ne_locked runs cfg
  have h2 : stage2 runs cfg = Status.LOCKED ↔ ¬(stage1 runs cfg = Status.DONE) :=
    (status_ground100_locked_iff runs cfg _).trans decide_eq_false_iff_not
  have h3 : stage3 runs cfg = Status.LOCKED ↔
      ¬(stage1 runs cfg = Status.DONE ∧ stage2 runs cfg = Status.DONE) :=
    (status_hover_locked_iff runs cfg _).trans decide_eq_false_iff_not
  have h4 : stage4 runs cfg = Status.LOCKED ↔
      ¬(stage1 runs cfg = Status.DONE ∧ stage2 runs cfg = Status.DONE ∧
        stage3 runs cfg = Status.DONE) :=
    (status_120k_locked_iff runs cfg _).trans decide_eq_false_iff_not
  have h5 : stage5 runs cfg = Status.LOCKED ↔
      ¬(stage1 runs cfg = Status.DONE ∧ stage2 runs cfg = Status.DONE ∧
        stage3 runs cfg = Status.DONE ∧ stage4 runs cfg = Status.DONE) :=
    (status_letdown_locked_iff runs cfg _).trans decide_eq_false_iff_not
  simp only [key]
  exact status_chain_locked _ _ _ _ _ h1 h2 h3 h4 h5

theorem C1_stage_order_gating_witness :
    statusAt ([] : RunSet) cfgW 0 ≠ Status.DONE ∧
    statusAt ([] : RunSet) cfgW 1 = Status.LOCKED :=
  ⟨by decide, (C1_stage_order_gating ([] : RunSet) cfgW).1 0 1 (by decide) (by decide)⟩

/-- C2: with a resolving track60 measurement, the stage is DONE iff all
three tolerance checks pass on the blade heights converted to inches, and
NEEDS exactly when at least one of them fails. -/
theorem C2_track60_tolerance_iff (runs : RunSet) (cfg : Config) (m : Meas)
    (hres : resolve runs cfg.sm_track60 = some m) :
    (status_track60 runs cfg = Status.DONE ↔
      (|(m.track_map.red.getD 0) / (25.4 : ℚ) - (m.track_map.blu.getD 0) / (25.4 : ℚ)| ≤
          cfg.track_pair_tol_in ∧
        |(m.track_map.org.getD 0) / (25.4 : ℚ) - (m.track_map.grn.getD 0) / (25.4 : ℚ)| ≤
          cfg.track_pair_tol_in ∧
        |(((m.track_map.red.getD 0) / (25.4 : ℚ) + (m.track_map.blu.getD 0) / (25.4 : ℚ)) / 2 -
            ((m.track_map.org.getD 0) / (25.4 : ℚ) + (m.track_map.grn.getD 0) / (25.4 : ℚ)) / 2) -
            cfg.pair_separation_in| ≤ cfg.sep_tol_in)) ∧
    (status_track60 runs cfg = Status.NEEDS ↔
      ¬(|(m.track_map.red.getD 0) / (25.4 : ℚ) - (m.track_map.blu.getD 0) / (25.4 : ℚ)| ≤
          cfg.track_pair_tol_in ∧
        |(m.track_map.org.getD 0) / (25.4 : ℚ) - (m.track_map.grn.getD 0) / (25.4 : ℚ)| ≤
          cfg.track_pair_tol_in ∧
        |(((m.track_map.red.getD 0) / (25.4 : ℚ) + (m.track_map.blu.getD 0) / (25.4 : ℚ)) / 2 -
            ((m.track_map.org.getD 0) / (25.4 : ℚ) + (m.track_map.grn.getD 0) / (25.4 : ℚ)) / 2) -
            cfg.pair_separation_in| ≤ cfg.sep_tol_in)) := by
  simp only [status_track60, hres, track_checks]
  by_cases p1 : |(m.track_map.red.getD 0) / (25.4 : ℚ) - (m.track_map.blu.getD 0) / (25.4 : ℚ)| ≤
      cfg.track_pair_tol_in <;>
    by_cases p2 : |(m.track_map.org.getD 0) / (25.4 : ℚ) - (m.track_map.grn.getD 0) / (25.4 : ℚ)| ≤
      cfg.track_pair_tol_in <;>
    by_cases p3 : |(((m.track_map.red.getD 0) / (25.4 : ℚ) + (m.track_map.blu.getD 0) / (25.4 : ℚ)) / 2 -
        ((m.track_map.org.getD 0) / (25.4 : ℚ) + (m.track_map.grn.getD 0) / (25.4 : ℚ)) / 2) -
        cfg.pair_separation_in| ≤ cfg.sep_tol_in <;>
    simp [p1, p2, p3]

theorem C2_track60_tolerance_iff_witness :
    status_track60 runsT2 cfgW = Status.DONE ∧
    status_track60 runsT2b cfgW = Status.NEEDS :=
  ⟨(C2_track60_tolerance_iff runsT2 cfgW (trackMeas 2.54 2.54 (-2.54) (-2.54))
      rfl).1.mpr
      (by norm_num [trackMeas, Meas.track_map, cfgW]),
   (C2_track60_tolerance_iff runsT2b cfgW (trackMeas 5.08 0 (-2.54) (-2.54))
      rfl).2.mpr
      (by norm_num [trackMeas, Meas.track_map, cfgW, abs, max_def])⟩

/-- C3: a ground100 measurement at or above the limit yields a NEEDS detail
whose hub-weight grams are `round((amplitude / sensitivity) * 100, 10)`, whose
correction angle is `(phase + 180) mod 360` mapped to the nearest half-hour
clock label, with 0° mapping to 12:00. -/
theorem C3_ground100_correction (runs : RunSet) (cfg : Config) (m : Meas)
    (hres : resolve runs cfg.sm_ground100 = some m)
    (hneeds : ¬ m.lat_amp < cfg.ground_ips_limit)
    (hsens : ¬ cfg.hub_weight_sensitivity_ips_per_100g = 0) :
    detail_ground100 runs cfg = .ok ("100% NR - Ground Mass Balance",
      wrap ["Status: NEEDS",
        "LAT 1R: " ++ fmtFixed 3 m.lat_amp ++ " ips @ " ++
          fmtFixed 1 m.lat_phase ++ "°",
        "Limit : < " ++ fmtFixed 2 cfg.ground_ips_limit ++ " ips",
        "Add HUB weight: ~" ++ toString (pyInt (round_to
          ((m.lat_amp / cfg.hub_weight_sensitivity_ips_per_100g) * 100) 10)) ++ " g",
        "Place @ " ++ deg_to_clock (pymod (m.lat_phase + 180) 360) ++
          " (180° from peak)",
        hub_split_hint (pymod (m.lat_phase + 180) 360),
        "Re-measure 100NR to validate."]) ∧
    deg_to_clock 0 = "12:00" := by
  constructor
  · have hok : decide (m.lat_amp < cfg.ground_ips_limit) = false :=
      decide_eq_false_iff_not.mpr hneeds
    simp only [detail_ground100, hres, hok, Bool.false_eq_true, if_false,
      pydiv, hsens, ite_false, Except.bind]
    rfl
  · norm_num [deg_to_clock, pymod, pyRound, pyInt]
    rfl

theorem C3_ground100_correction_witness :
    detail_ground100 runsG3 cfgW = .ok ("100% NR - Ground Mass Balance",
      wrap ["Status: NEEDS", "LAT 1R: 0.220 ips @ 70.0°", "Limit : < 0.15 ips",
        "Add HUB weight: ~200 g", "Place @ 8:30 (180° from peak)",
        "Split nearest: GRN/RED", "Re-measure 100NR to validate."]) := by
  have h := (C3_ground100_correction runsG3 cfgW (latMeas 0.22 70) rfl
    (by norm_num [latMeas, Meas.lat_amp, pyOr0, cfgW])
    (by norm_num [cfgW])).1
  rw [h]
  norm_num [latMeas, Meas.lat_amp, Meas.lat_phase, pyOr0, cfgW, fmtFixed,
    fmtNum, pyRound, pyInt, pymod, round_to, deg_to_clock, hub_split_hint,
    abs, max_def]
  rfl

/-- C4: a NEEDS hover detail compares the hover phase with the ground100
phase by shortest-arc circular difference; at most 30° it reuses the
ground100 hub-weight formula on the hover amplitude, above 30° — or with no
resolving ground100 measurement, treated as maximal — it takes the
aerodynamic branch with `units = max(1, round(amplitude * product_weights_per_ips))`. -/
theorem C4_hover_decision (runs : RunSet) (cfg : Config) (m : Meas)
    (hres : resolve runs cfg.sm_hover = some m)
    (hneeds : ¬ m.lat_amp < cfg.hover_ips_limit) :
    (∀ g, resolve runs cfg.sm_ground100 = some g →
      (ang_diff m.lat_phase g.lat_phase ≤ 30 →
        ¬ cfg.hub_weight_sensitivity_ips_per_100g = 0 →
        detail_hover runs cfg = .ok ("Hover - Product Balance vs Roll",
          wrap ["Status: NEEDS",
            "LAT 1R: " ++ fmtFixed 3 m.lat_amp ++ " ips @ " ++
              fmtFixed 1 m.lat_phase ++ "°",
            "Limit : < " ++ fmtFixed 2 cfg.hover_ips_limit ++ " ips",
            "Angle vs Ground: Δ=" ++
              fmtFixed 0 (ang_diff m.lat_phase g.lat_phase) ++ "°",
            "Decision: MASS (Hub) - keep ground bal",
            "Add HUB weight: ~" ++ toString (pyInt (round_to
              ((m.lat_amp / cfg.hub_weight_sensitivity_ips_per_100g) * 100)
              10)) ++ " g",
            "Place @ " ++ deg_to_clock (pymod (m.lat_phase + 180) 360),
            hub_split_hint (pymod (m.lat_phase + 180) 360),
            "Re-measure HOVER to validate."])) ∧
      (30 < ang_diff m.lat_phase g.lat_phase →
        detail_hover runs cfg = .ok ("Hover - Product Balance vs Roll",
          wrap ["Status: NEEDS",
            "LAT 1R: " ++ fmtFixed 3 m.lat_amp ++ " ips @ " ++
              fmtFixed 1 m.lat_phase ++ "°",
            "Limit : < " ++ fmtFixed 2 cfg.hover_ips_limit ++ " ips",
            "Angle vs Ground: Δ=" ++
              fmtFixed 0 (ang_diff m.lat_phase g.lat_phase) ++ "°",
            "Decision: AERO (Blade) - product bal",
            "Add TIP weights: ~" ++ toString
              (max 1 (pyRound (m.lat_amp * cfg.product_weights_per_ips))) ++
              " units",
            "Place @ " ++ deg_to_clock (pymod (m.lat_phase + 180) 360),
            "NOTE: tip weights are ~11x hub effect",
            "      and will affect ground balance",
            "Re-measure HOVER to validate."]))) ∧
    (resolve runs cfg.sm_ground100 = none →
      detail_hover runs cfg = .ok ("Hover - Product Balance vs Roll",
        wrap ["Status: NEEDS",
          "LAT 1R: " ++ fmtFixed 3 m.lat_amp ++ " ips @ " ++
            fmtFixed 1 m.lat_phase ++ "°",
          "Limit : < " ++ fmtFixed 2 cfg.hover_ips_limit ++ " ips",
          "No Ground reference available",
          "Decision: AERO (Blade) - product bal",
          "Add TIP weights: ~" ++ toString
            (max 1 (pyRound (m.lat_amp * cfg.product_weights_per_ips))) ++
            " units",
          "Place @ " ++ deg_to_clock (pymod (m.lat_phase + 180) 360),
          "NOTE: tip weights are ~11x hub effect",
          "      and will affect ground balance",
          "Re-measure HOVER to validate."])) := by
  have hok : decide (m.lat_amp < cfg.hover_ips_limit) = false :=
    decide_eq_false_iff_not.mpr hneeds
  refine ⟨fun g hg => ⟨fun hd hsens => ?_, fun hd => ?_⟩, fun hg => ?_⟩
  · simp only [detail_hover, hres, hg, hok, Bool.false_eq_true, if_false,
      pydiv, hsens, ite_false, Except.bind]
    rw [if_pos hd]
    rfl
  · simp only [detail_hover, hres, hg, hok, Bool.false_eq_true, if_false]
    rw [if_neg (not_le.mpr hd)]
    rfl
  · simp only [detail_hover, hres, hg, hok, Bool.false_eq_true, if_false]
    rw [if_neg (by norm_num : ¬ ((999 : ℚ) ≤ 30))]
    rfl

theorem C4_hover_decision_witness :
    detail_hover runsH4 cfgW = .ok ("Hover - Product Balance vs Roll",
      wrap ["Status: NEEDS", "LAT 1R: 0.250 ips @ 170.0°", "Limit : < 0.20 ips",
        "Angle vs Ground: Δ=150°", "Decision: AERO (Blade) - product bal",
        "Add TIP weights: ~10 units", "Place @ 11:30",
        "NOTE: tip weights are ~11x hub effect",
        "      and will affect ground balance",
        "Re-measure HOVER to validate."]) ∧
    detail_hover runsH4b cfgW = .ok ("Hover - Product Balance vs Roll",
      wrap ["Status: NEEDS", "LAT 1R: 0.250 ips @ 170.0°", "Limit : < 0.20 ips",
        "No Ground reference available", "Decision: AERO (Blade) - product bal",
        "Add TIP weights: ~10 units", "Place @ 11:30",
        "NOTE: tip weights are ~11x hub effect",
        "      and will affect ground balance",
        "Re-measure HOVER to validate."]) := by
  constructor
  · have h := ((C4_hover_decision runsH4 cfgW (latMeas 0.25 170) rfl
      (by norm_num [latMeas, Meas.lat_amp, pyOr0, cfgW])).1
      (latMeas 0.1 20) rfl).2
      (by norm_num [latMeas, Meas.lat_phase, pyOr0, ang_diff, pymod, abs, max_def])
    rw [h]
    norm_num [latMeas, Meas.lat_amp, Meas.lat_phase, pyOr0, cfgW, fmtFixed,
      fmtNum, pyRound, pyInt, pymod, round_to, deg_to_clock, ang_diff,
      abs, max_def]
    rfl
  · have h := (C4_hover_decision runsH4b cfgW (latMeas 0.25 170) rfl
      (by norm_num [latMeas, Meas.lat_amp, pyOr0, cfgW])).2 rfl
    rw [h]
    norm_num [latMeas, Meas.lat_amp, Meas.lat_phase, pyOr0, cfgW, fmtFixed,
      fmtNum, pyRound, pyInt, pymod, round_to, deg_to_clock,
      abs, max_def]
    rfl

theorem pymod_nonneg (a b : ℚ) (hb : 0 < b) : 0 ≤ pymod a b := by
  have h := Int.floor_le (a / b)
  have h2 : (⌊a / b⌋ : ℚ) * b ≤ a := (le_div_iff₀ hb).mp h
  unfold pymod
  nlinarith

theorem pymod_lt (a b : ℚ) (hb : 0 < b) : pymod a b < b := by
  have h := Int.lt_floor_add_one (a / b)
  have h2 : a < ((⌊a / b⌋ : ℚ) + 1) * b := (div_lt_iff₀ hb).mp h
  unfold pymod
  nlinarith

theorem pick_state_ext (runs runs' : RunSet) (names : List String)
    (h : ∀ n ∈ names, List.lookup n runs = List.lookup n runs') :
    pick_state runs names = pick_state runs' names := by
  induction names with
  | nil => rfl
  | cons n rest ih =>
    simp only [pick_state]
    rw [h n (by simp)]
    cases List.lookup n runs' with
    | some m => rfl
    | none => exact ih fun k hk => h k (by simp [hk])

theorem ang_diff_nonneg (a b : ℚ) : 0 ≤ ang_diff a b := by
  simp only [ang_diff]
  split_ifs <;> exact abs_nonneg _

theorem ang_diff_le_180 (a b : ℚ) : ang_diff a b ≤ 180 := by
  have h0 := pymod_nonneg (a - b) 360 (by norm_num)
  have h1 := pymod_lt (a - b) 360 (by norm_num)
  simp only [ang_diff]
  split_ifs with h
  · rw [abs_of_nonneg (by linarith)]
    linarith
  · rw [abs_of_nonneg h0]
    linarith

theorem nearest_fold_spec (ph : ℚ) :
    ∀ (l : List (String × ℚ)) (acc : Option String × ℚ),
    (l.foldl (nearest_step ph) acc = acc ∨
      ∃ p ∈ l, l.foldl (nearest_step ph) acc = (some p.1, ang_diff ph p.2)) ∧
    (l.foldl (nearest_step ph) acc).2 ≤ acc.2 ∧
    ∀ p ∈ l, (l.foldl (nearest_step ph) acc).2 ≤ ang_diff ph p.2
  | [], acc => by simp
  | p :: l, acc => by
    have ih := nearest_fold_spec ph l (nearest_step ph acc p)
    have hstep2 : (nearest_step ph acc p).2 ≤ acc.2 := by
      simp only [nearest_step]
      split_ifs with hlt
      · exact le_of_lt hlt
      · exact le_refl _
    have hstepd : (nearest_step ph acc p).2 ≤ ang_diff ph p.2 := by
      simp only [nearest_step]
      split_ifs with hlt
      · exact le_refl _
      · exact le_of_not_lt hlt
    simp only [List.foldl_cons]
    refine ⟨?_, le_trans ih.2.1 hstep2, ?_⟩
    · rcases ih.1 with h | ⟨q, hq, he⟩
      · rw [h]
        simp only [nearest_step]
        split_ifs
        · exact Or.inr ⟨p, List.mem_cons_self p l, rfl⟩
        · exact Or.inl rfl
      · exact Or.inr ⟨q, List.mem_cons_of_mem p hq, he⟩
    · intro q hq
      rcases List.mem_cons.mp hq with h | h
      · subst h
        exact le_trans ih.2.1 hstepd
      · exact ih.2.2 q h

theorem nearest_blade_min (ph : ℚ) (l : List (String × ℚ)) (hl : l ≠ []) :
    ∃ az, (nearest_blade ph l, az) ∈ l ∧
      ∀ p ∈ l, ang_diff ph az ≤ ang_diff ph p.2 := by
  rcases l with _ | ⟨p0, l'⟩
  · exact absurd rfl hl
  obtain ⟨hmem, -, hall⟩ :=
    nearest_fold_spec ph (p0 :: l') ((none : Option String), (1000000000 : ℚ))
  rcases hmem with h | ⟨p, hp, he⟩
  · exfalso
    have hle := hall p0 (List.mem_cons_self p0 l')
    rw [h] at hle
    have := ang_diff_le_180 ph p0.2
    norm_num at hle
    linarith
  · refine ⟨p.2, ?_, ?_⟩
    · have hb : nearest_blade ph (p0 :: l') = p.1 := by
        unfold nearest_blade
        simp only [List.isEmpty_cons, Bool.false_eq_true, if_false, he]
      rw [hb]
      exact hp
    · intro q hq
      have := hall q hq
      rw [he] at this
      exact this

/-- C6: a NEEDS kias120 detail bends a tab by
`max(0.2, round(amplitude / vertical_tab_ips_per_deg, 0.1))` degrees; option 1
bends UP the tab of the blade whose azimuth is circularly nearest the
measured vertical phase, option 2 bends DOWN the tab of the blade nearest
phase+180, and the named blade is minimal-distance among the configured
azimuths. -/
theorem C6_kias120_tab (runs : RunSet) (cfg : Config) (m : Meas)
    (hres : resolve runs cfg.sm_kias120 = some m)
    (hneeds : ¬ m.vert_amp < cfg.kias120_vert_limit)
    (hsens : 0 < cfg.vertical_tab_ips_per_deg) :
    (detail_120k runs cfg 1 = .ok ("120 KIAS - Vertical Smoother",
      wrap ["Status: NEEDS",
        "VRT 1R: " ++ fmtFixed 3 m.vert_amp ++ " ips @ " ++
          fmtFixed 1 m.vert_phase ++ "°",
        "Limit : < " ++ fmtFixed 2 cfg.kias120_vert_limit ++ " ips",
        "Option 1 selected",
        "Bend OUTBD TAB of " ++
          nearest_blade m.vert_phase cfg.blade_azimuth_deg ++ " UP",
        "Amount: " ++ fmtFixed 1 (max (0.2 : ℚ)
          (round_to (m.vert_amp / cfg.vertical_tab_ips_per_deg) (0.1 : ℚ))) ++ "°",
        "Re-measure 120K to validate."])) ∧
    (detail_120k runs cfg 2 = .ok ("120 KIAS - Vertical Smoother",
      wrap ["Status: NEEDS",
        "VRT 1R: " ++ fmtFixed 3 m.vert_amp ++ " ips @ " ++
          fmtFixed 1 m.vert_phase ++ "°",
        "Limit : < " ++ fmtFixed 2 cfg.kias120_vert_limit ++ " ips",
        "Option 2 selected",
        "Bend OUTBD TAB of " ++
          nearest_blade (pymod (m.vert_phase + 180) 360)
            cfg.blade_azimuth_deg ++ " DOWN",
        "Amount: " ++ fmtFixed 1 (max (0.2 : ℚ)
          (round_to (m.vert_amp / cfg.vertical_tab_ips_per_deg) (0.1 : ℚ))) ++ "°",
        "Re-measure 120K to validate."])) ∧
    (cfg.blade_azimuth_deg ≠ [] →
      (∃ az, (nearest_blade m.vert_phase cfg.blade_azimuth_deg, az) ∈
          cfg.blade_azimuth_deg ∧
        ∀ p ∈ cfg.blade_azimuth_deg,
          ang_diff m.vert_phase az ≤ ang_diff m.vert_phase p.2) ∧
      (∃ az, (nearest_blade (pymod (m.vert_phase + 180) 360)
          cfg.blade_azimuth_deg, az) ∈ cfg.blade_azimuth_deg ∧
        ∀ p ∈ cfg.blade_azimuth_deg,
          ang_diff (pymod (m.vert_phase + 180) 360) az ≤
            ang_diff (pymod (m.vert_phase + 180) 360) p.2)) := by
  have hok : decide (m.vert_amp < cfg.kias120_vert_limit) = false :=
    decide_eq_false_iff_not.mpr hneeds
  refine ⟨?_, ?_, fun hl =>
    ⟨nearest_blade_min _ _ hl, nearest_blade_min _ _ hl⟩⟩
  · simp only [detail_120k, hres, hok, Bool.false_eq_true, if_false]
    rw [if_pos hsens]
    rfl
  · simp only [detail_120k, hres, hok, Bool.false_eq_true, if_false]
    rw [if_pos hsens]
    rfl

theorem C6_kias120_tab_witness :
    detail_120k runsK6 cfgW 1 = .ok ("120 KIAS - Vertical Smoother",
      wrap ["Status: NEEDS", "VRT 1R: 0.300 ips @ 10.0°", "Limit : < 0.20 ips",
        "Option 1 selected", "Bend OUTBD TAB of RED UP", "Amount: 4.3°",
        "Re-measure 120K to validate."]) ∧
    detail_120k runsK6 cfgW 2 = .ok ("120 KIAS - Vertical Smoother",
      wrap ["Status: NEEDS", "VRT 1R: 0.300 ips @ 10.0°", "Limit : < 0.20 ips",
        "Option 2 selected", "Bend OUTBD TAB of BLU DOWN", "Amount: 4.3°",
        "Re-measure 120K to validate."]) := by
  have h := C6_kias120_tab runsK6 cfgW (vertMeas 0.3 10) rfl
    (by norm_num [vertMeas, Meas.vert_amp, pyOr0, cfgW])
    (by norm_num [cfgW])
  constructor
  · rw [h.1]
    norm_num [vertMeas, Meas.vert_amp, Meas.vert_phase, pyOr0, cfgW, fmtFixed,
      fmtNum, pyRound, pymod, round_to, nearest_blade, nearest_step,
      List.foldl, ang_diff, abs, max_def]
    rfl
  · rw [h.2.1]
    norm_num [vertMeas, Meas.vert_amp, Meas.vert_phase, pyOr0, cfgW, fmtFixed,
      fmtNum, pyRound, pymod, round_to, nearest_blade, nearest_step,
      List.foldl, ang_diff, abs, max_def]
    rfl

/-- C8, counterexample: the hub-weight sensitivity division in the ground100
detail is NOT guarded — with a zero sensitivity and a NEEDS measurement the
evaluation raises ZeroDivisionError instead of defaulting the quantity to
zero. -/
theorem C8_counterexample_hub_division_raises :
    detail_ground100 runsG3 cfgZ =
      .error "ZeroDivisionError: float division by zero" := by
  have hres : resolve runsG3 cfgZ.sm_ground100 = some (latMeas 0.22 70) := rfl
  have hok : decide ((latMeas 0.22 70).lat_amp < cfgZ.ground_ips_limit) = false :=
    decide_eq_false_iff_not.mpr
      (by norm_num [latMeas, Meas.lat_amp, pyOr0, cfgZ])
  simp only [detail_ground100, hres, hok, Bool.false_eq_true, if_false, pydiv]
  rw [if_pos (show cfgZ.hub_weight_sensitivity_ips_per_100g = (0 : ℚ) from rfl)]
  rfl

/-- C8 amended: only the vertical-tab sensitivity division is guarded — a
non-positive `vertical_tab_ips_per_deg` makes the quotient default to 0 (so
the tab amount becomes the 0.2 floor) instead of raising — and the
step-rounding helper guards non-positive steps; the hub-weight sensitivity
divisions are unguarded (see the counterexample) and the aerodynamic
sensitivity is a multiplier, never a denominator. -/
theorem C8_division_guards (runs : RunSet) (cfg : Config) (m : Meas)
    (hres : resolve runs cfg.sm_kias120 = some m)
    (hneeds : ¬ m.vert_amp < cfg.kias120_vert_limit)
    (hsens : cfg.vertical_tab_ips_per_deg ≤ 0) :
    detail_120k runs cfg 1 = .ok ("120 KIAS - Vertical Smoother",
      wrap ["Status: NEEDS",
        "VRT 1R: " ++ fmtFixed 3 m.vert_amp ++ " ips @ " ++
          fmtFixed 1 m.vert_phase ++ "°",
        "Limit : < " ++ fmtFixed 2 cfg.kias120_vert_limit ++ " ips",
        "Option 1 selected",
        "Bend OUTBD TAB of " ++
          nearest_blade m.vert_phase cfg.blade_azimuth_deg ++ " UP",
        "Amount: 0.2°",
        "Re-measure 120K to validate."]) ∧
    (∀ x s : ℚ, s ≤ 0 → round_to x s = x) := by
  constructor
  · have hok : decide (m.vert_amp < cfg.kias120_vert_limit) = false :=
      decide_eq_false_iff_not.mpr hneeds
    simp only [detail_120k, hres, hok, Bool.false_eq_true, if_false]
    rw [if_neg (not_lt.mpr hsens)]
    norm_num [round_to, pyRound, fmtFixed, fmtNum, max_def]
    rfl
  · intro x s hs
    simp [round_to, hs]

theorem C8_division_guards_witness :
    detail_120k runsK6 cfgZ 1 = .ok ("120 KIAS - Vertical Smoother",
      wrap ["Status: NEEDS", "VRT 1R: 0.300 ips @ 10.0°", "Limit : < 0.20 ips",
        "Option 1 selected", "Bend OUTBD TAB of RED UP", "Amount: 0.2°",
        "Re-measure 120K to validate."]) := by
  have h := (C8_division_guards runsK6 cfgZ (vertMeas 0.3 10) rfl
    (by norm_num [vertMeas, Meas.vert_amp, pyOr0, cfgZ])
    (by norm_num [cfgZ])).1
  rw [h]
  norm_num [vertMeas, Meas.vert_amp, Meas.vert_phase, pyOr0, cfgZ, fmtFixed,
    fmtNum, pyRound, pymod, nearest_blade, nearest_step, List.foldl,
    ang_diff, abs, max_def]
  rfl

/-- C9: when the resolved status of the requested stage is LOCKED or MISSING
the Detail Generator returns the fixed informational message for that stage
(independent of any measurement content), and an unknown stage id resolves to
MISSING with the distinct fallback title "DIAGS", which no known stage
uses on this path. -/
theorem C9_locked_missing_fallback (runs : RunSet) (cfg : Config)
    (step_id : String) (opt : ℤ) :
    (resolved_status runs cfg step_id = Status.LOCKED →
      step_detail runs cfg step_id opt = .ok
        ((step_titles.lookup step_id).getD "DIAGS",
          wrap ["LOCKED: complete previous steps",
            "and re-measure until they are DONE."])) ∧
    (resolved_status runs cfg step_id = Status.MISSING →
      step_detail runs cfg step_id opt = .ok
        ((step_titles.lookup step_id).getD "DIAGS",
          wrap ["No measurement for this step.",
            "Go to MEASURE and run the regime."])) ∧
    (step_id ∉ known_steps →
      resolved_status runs cfg step_id = Status.MISSING ∧
      (step_titles.lookup step_id).getD "DIAGS" = "DIAGS" ∧
      ∀ k ∈ known_steps, (step_titles.lookup k).getD "DIAGS" ≠ "DIAGS") := by
  refine ⟨fun h => ?_, fun h => ?_, fun h => ?_⟩
  · simp [step_detail, h]
  · simp [step_detail, h]
  · obtain ⟨h1, h2, h3, h4, h5⟩ :
        step_id ≠ "track60" ∧ step_id ≠ "ground100" ∧ step_id ≠ "hover" ∧
          step_id ≠ "kias120" ∧ step_id ≠ "letdown" := by
      simpa [known_steps, not_or] using h
    have b1 : (step_id == "track60") = false := beq_eq_false_iff_ne.mpr h1
    have b2 : (step_id == "ground100") = false := beq_eq_false_iff_ne.mpr h2
    have b3 : (step_id == "hover") = false := beq_eq_false_iff_ne.mpr h3
    have b4 : (step_id == "kias120") = false := beq_eq_false_iff_ne.mpr h4
    have b5 : (step_id == "letdown") = false := beq_eq_false_iff_ne.mpr h5
    refine ⟨?_, ?_, by decide⟩
    · simp [resolved_status, step_summaries, List.lookup, b1, b2, b3, b4, b5]
    · simp [step_titles, List.lookup, b1, b2, b3, b4, b5]

theorem C9_locked_missing_fallback_witness :
    step_detail ([] : RunSet) cfgW "bogus" 1 = .ok ("DIAGS",
      wrap ["No measurement for this step.",
        "Go to MEASURE and run the regime."]) ∧
    step_detail ([] : RunSet) cfgW "letdown" 1 = .ok ("Letdown (Trim)",
      wrap ["LOCKED: complete previous steps",
        "and re-measure until they are DONE."]) := by
  constructor
  · have h3 := (C9_locked_missing_fallback ([] : RunSet) cfgW "bogus" 1).2.2
      (by decide)
    have h2 := (C9_locked_missing_fallback ([] : RunSet) cfgW "bogus" 1).2.1 h3.1
    rw [h3.2.1] at h2
    exact h2
  · exact (C9_locked_missing_fallback ([] : RunSet) cfgW "letdown" 1).1 (by decide)

/-- C10: a resolving (truthy) record whose canonical amplitude field and
legacy alias are both absent, null or zero is treated as amplitude 0.0, so a
reachable non-track60 stage with a positive limit evaluates to DONE. -/
theorem C10_null_amplitude_passes (runs : RunSet) (cfg : Config) (m : Meas)
    (hlat : m.lat_1r_ips = none ∨ m.lat_1r_ips = some none ∨
      m.lat_1r_ips = some (some 0))
    (hvib : m.vib_1r_ips = none ∨ m.vib_1r_ips = some none ∨
      m.vib_1r_ips = some (some 0))
    (hvert : m.vert_1r_ips = none ∨ m.vert_1r_ips = some none ∨
      m.vert_1r_ips = some (some 0)) :
    m.lat_amp = 0 ∧ m.vert_amp = 0 ∧
    (resolve runs cfg.sm_ground100 = some m → 0 < cfg.ground_ips_limit →
      status_ground100 runs cfg true = Status.DONE) ∧
    (resolve runs cfg.sm_hover = some m → 0 < cfg.hover_ips_limit →
      status_hover runs cfg true = Status.DONE) ∧
    (resolve runs cfg.sm_kias120 = some m → 0 < cfg.kias120_vert_limit →
      status_120k runs cfg true = Status.DONE) ∧
    (resolve runs cfg.sm_letdown = some m → 0 < cfg.letdown_ips_limit →
      status_letdown runs cfg true = Status.DONE) := by
  have hla : m.lat_amp = 0 := by
    unfold Meas.lat_amp
    rcases hlat with h | h | h
    · rw [h]
      rcases hvib with h' | h' | h' <;> rw [h'] <;> simp [pyOr0]
    · rw [h]
      simp [pyOr0]
    · rw [h]
      simp [pyOr0]
  have hva : m.vert_amp = 0 := by
    unfold Meas.vert_amp
    rcases hvert with h | h | h <;> rw [h] <;> simp [pyOr0]
  refine ⟨hla, hva, fun hres hlim => ?_, fun hres hlim => ?_,
    fun hres hlim => ?_, fun hres hlim => ?_⟩
  · simp [status_ground100, hres, hla, hlim]
  · simp [status_hover, hres, hla, hlim]
  · simp [status_120k, hres, hva, hlim]
  · simp [status_letdown, hres, hla, hlim]

theorem C10_null_amplitude_passes_witness :
    status_ground100 runsN10 cfgW true = Status.DONE ∧
    status_120k runsN10 cfgW true = Status.DONE := by
  have h := C10_null_amplitude_passes runsN10 cfgW mNull
    (Or.inr (Or.inl rfl)) (Or.inl rfl) (Or.inr (Or.inr rfl))
  exact ⟨h.2.2.1 rfl (by norm_num [cfgW]),
    h.2.2.2.2.1 rfl (by norm_num [cfgW])⟩

/-- C7, counterexample: the loader accepts a parsed JSON object that lacks
every required key (it returns it unchanged, raising no ConfigError — no
such validation or exception class exists in the engine). -/
theorem C7_counterexample_no_validation :
    load_cfg ⟨[]⟩ = .ok ⟨[]⟩ ∧
    (RawConfig.mk []).entries.lookup "ground_ips_limit" = none ∧
    "ground_ips_limit" ∈ required_cfg_keys :=
  ⟨rfl, rfl, by decide⟩

/-- C7 amended: the engine's config loader returns the parsed JSON object
unchanged on every call (no validation, no ConfigError, no caching guard —
the source re-reads the file each call), and stage evaluation is a pure
function of (RunSet, Config): summaries depend on the run set only through
the lookups of the configured alias names. -/
theorem C7_load_and_purity :
    (∀ raw : RawConfig, load_cfg raw = .ok raw) ∧
    (∀ (runs runs' : RunSet) (cfg : Config),
      (∀ n ∈ cfg.sm_track60 ++ cfg.sm_ground100 ++ cfg.sm_hover ++
          cfg.sm_kias120 ++ cfg.sm_letdown,
        List.lookup n runs = List.lookup n runs') →
      step_summaries runs cfg = step_summaries runs' cfg) := by
  refine ⟨fun raw => rfl, fun runs runs' cfg h => ?_⟩
  have e1 : resolve runs cfg.sm_track60 = resolve runs' cfg.sm_track60 := by
    unfold resolve
    rw [pick_state_ext runs runs' _ fun n hn => h n (by simp [hn])]
  have e2 : resolve runs cfg.sm_ground100 = resolve runs' cfg.sm_ground100 := by
    unfold resolve
    rw [pick_state_ext runs runs' _ fun n hn => h n (by simp [hn])]
  have e3 : resolve runs cfg.sm_hover = resolve runs' cfg.sm_hover := by
    unfold resolve
    rw [pick_state_ext runs runs' _ fun n hn => h n (by simp [hn])]
  have e4 : resolve runs cfg.sm_kias120 = resolve runs' cfg.sm_kias120 := by
    unfold resolve
    rw [pick_state_ext runs runs' _ fun n hn => h n (by simp [hn])]
  have e5 : resolve runs cfg.sm_letdown = resolve runs' cfg.sm_letdown := by
    unfold resolve
    rw [pick_state_ext runs runs' _ fun n hn => h n (by simp [hn])]
  have t1 : status_track60 runs cfg = status_track60 runs' cfg := by
    unfold status_track60
    rw [e1]
  have t2 : ∀ b, status_ground100 runs cfg b = status_ground100 runs' cfg b := by
    intro b
    unfold status_ground100
    rw [e2]
  have t3 : ∀ b, status_hover runs cfg b = status_hover runs' cfg b := by
    intro b
    unfold status_hover
    rw [e3]
  have t4 : ∀ b, status_120k runs cfg b = status_120k runs' cfg b := by
    intro b
    unfold status_120k
    rw [e4]
  have t5 : ∀ b, status_letdown runs cfg b = status_letdown runs' cfg b := by
    intro b
    unfold status_letdown
    rw [e5]
  simp only [step_summaries, t1, t2, t3, t4, t5]

theorem pyRoundR_ratCast (q : ℚ) : pyRoundR ((q : ℚ) : ℝ) = pyRound q := by
  simp only [pyRoundR, pyRound, Rat.floor_cast]
  have e : ((q : ℚ) : ℝ) - ((⌊q⌋ : ℤ) : ℝ) = (((q - ⌊q⌋ : ℚ)) : ℝ) := by
    push_cast
    ring
  rw [e]
  have c1 : (((q - ⌊q⌋ : ℚ)) : ℝ) < 1/2 ↔ (q - ⌊q⌋ : ℚ) < 1/2 := by
    rw [show (1/2 : ℝ) = (((1 : ℚ)/2 : ℚ) : ℝ) by norm_num]
    exact Rat.cast_lt
  have c2 : (1/2 : ℝ) < (((q - ⌊q⌋ : ℚ)) : ℝ) ↔ (1 : ℚ)/2 < q - ⌊q⌋ := by
    rw [show (1/2 : ℝ) = (((1 : ℚ)/2 : ℚ) : ℝ) by norm_num]
    exact Rat.cast_lt
  by_cases h1 : (q - ⌊q⌋ : ℚ) < 1/2
  · rw [if_pos (c1.mpr h1), if_pos h1]
  · rw [if_neg (fun hx => h1 (c1.mp hx)), if_neg h1]
    by_cases h2 : (1 : ℚ)/2 < q - ⌊q⌋
    · rw [if_pos (c2.mpr h2), if_pos h2]
    · rw [if_neg (fun hx => h2 (c2.mp hx)), if_neg h2]

theorem fmtFixedR_ratCast (prec : Nat) (q : ℚ) :
    fmtFixedR prec ((q : ℚ) : ℝ) = fmtFixed prec q := by
  unfold fmtFixedR fmtFixed
  have e : ((q : ℚ) : ℝ) * (10 : ℝ) ^ prec = (((q * 10 ^ prec : ℚ)) : ℝ) := by
    push_cast
    ring
  rw [e, pyRoundR_ratCast, decide_eq_decide.mpr Rat.cast_lt_zero]

theorem vec_phase_zero (a : ℚ) : vec a 0 = Complex.ofReal ((a : ℚ) : ℝ) := by
  unfold vec
  apply Complex.ext <;>
    simp [Rat.cast_zero, Real.cos_zero, Real.sin_zero]

theorem vec_phase_180 (a : ℚ) : vec a 180 = Complex.ofReal (-((a : ℚ) : ℝ)) := by
  unfold vec
  have h : ((180 : ℚ) : ℝ) * Real.pi / 180 = Real.pi := by
    rw [show ((180 : ℚ) : ℝ) = (180 : ℝ) by norm_num, mul_comm, mul_div_assoc]
    norm_num
  rw [h]
  apply Complex.ext <;> simp [Real.cos_pi, Real.sin_pi]

/-- C5: a NEEDS letdown detail with a resolving ground100 measurement
predicts the post-correction ground amplitude as the magnitude of the sum of
the ground phasor and the full correction phasor (letdown amplitude at
letdown phase + 180 mod 360); exactly when that prediction exceeds the
ground limit it emits a 50%-strength compromise — grams = full grams * 0.5
rounded to the nearest 10 — plus predicted ground100 and letdown amplitude
lines obtained by the same vector addition with only the correction vector
scaled by 0.5. -/
theorem C5_letdown_compromise (runs : RunSet) (cfg : Config) (m g : Meas)
    (hres : resolve runs cfg.sm_letdown = some m)
    (hneeds : ¬ m.lat_amp < cfg.letdown_ips_limit)
    (hsens : ¬ cfg.hub_weight_sensitivity_ips_per_100g = 0)
    (hg : resolve runs cfg.sm_ground100 = some g) :
    detail_letdown runs cfg = .ok ("Letdown - Final Trim",
      wrap (["Status: NEEDS",
        "LAT 1R: " ++ fmtFixed 3 m.lat_amp ++ " ips @ " ++
          fmtFixed 1 m.lat_phase ++ "°",
        "Limit : < " ++ fmtFixed 2 cfg.letdown_ips_limit ++ " ips",
        "Suggested HUB weight: ~" ++ toString (pyInt (round_to
          ((m.lat_amp / cfg.hub_weight_sensitivity_ips_per_100g) * 100) 10)) ++
          " g",
        "Place @ " ++ deg_to_clock (pymod (m.lat_phase + 180) 360),
        hub_split_hint (pymod (m.lat_phase + 180) 360),
        "Check 100NR: predicted " ++ fmtFixedR 3 (Complex.abs
          (vec g.lat_amp g.lat_phase +
            vec m.lat_amp (pymod (m.lat_phase + 180) 360))) ++ " ips",
        "Ground limit: " ++ fmtFixed 2 cfg.ground_ips_limit ++ " ips"] ++
        (if (cfg.ground_ips_limit : ℝ) < Complex.abs
            (vec g.lat_amp g.lat_phase +
              vec m.lat_amp (pymod (m.lat_phase + 180) 360)) then
          ["Safety compromise triggered",
            "Use 50%: ~" ++ toString (pyInt (round_to
              ((round_to ((m.lat_amp / cfg.hub_weight_sensitivity_ips_per_100g)
                * 100) 10) * (0.5 : ℚ)) 10)) ++ " g",
            "Pred 100NR: " ++ fmtFixedR 3 (Complex.abs
              (vec g.lat_amp g.lat_phase +
                vec m.lat_amp (pymod (m.lat_phase + 180) 360) *
                  ((0.5 : ℝ) : ℂ))) ++ " ips",
            "Pred LET:  " ++ fmtFixedR 3 (Complex.abs
              (vec m.lat_amp m.lat_phase +
                vec m.lat_amp (pymod (m.lat_phase + 180) 360) *
                  ((0.5 : ℝ) : ℂ))) ++ " ips"]
        else []) ++
        ["Re-measure LETDOWN to validate."])) := by
  have hok : decide (m.lat_amp < cfg.letdown_ips_limit) = false :=
    decide_eq_false_iff_not.mpr hneeds
  simp only [detail_letdown, hres, hg, hok, Bool.false_eq_true, if_false,
    pydiv, hsens, ite_false, Except.bind]
  by_cases hc : (cfg.ground_ips_limit : ℝ) < Complex.abs
      (vec g.lat_amp g.lat_phase +
        vec m.lat_amp (pymod (m.lat_phase + 180) 360))
  · simp only [hc, if_true]
    rfl
  · simp only [hc, if_false]
    rfl

theorem C5_letdown_compromise_witness :
    detail_letdown runsL5 cfgW = .ok ("Letdown - Final Trim",
      wrap ["Status: NEEDS", "LAT 1R: 0.300 ips @ 180.0°",
        "Limit : < 0.20 ips", "Suggested HUB weight: ~270 g",
        "Place @ 12:00", "Split nearest: GRN/ORG",
        "Check 100NR: predicted 0.400 ips", "Ground limit: 0.15 ips",
        "Safety compromise triggered", "Use 50%: ~140 g",
        "Pred 100NR: 0.250 ips", "Pred LET:  0.150 ips",
        "Re-measure LETDOWN to validate."]) := by
  have h := C5_letdown_compromise runsL5 cfgW (latMeas 0.3 180) (latMeas 0.1 0)
    rfl (by norm_num [latMeas, Meas.lat_amp, pyOr0, cfgW])
    (by norm_num [cfgW]) rfl
  rw [h]
  rw [show (latMeas 0.3 180).lat_amp = (0.3 : ℚ) from rfl,
    show (latMeas 0.3 180).lat_phase = (180 : ℚ) from rfl,
    show (latMeas 0.1 0).lat_amp = (0.1 : ℚ) from rfl,
    show (latMeas 0.1 0).lat_phase = (0 : ℚ) from rfl,
    show pymod ((180 : ℚ) + 180) 360 = 0 by norm_num [pymod]]
  have hmul : vec (0.3 : ℚ) 0 * ((0.5 : ℝ) : ℂ) =
      Complex.ofReal (((3 : ℚ)/20 : ℚ) : ℝ) := by
    rw [vec_phase_zero, ← Complex.ofReal_mul]
    norm_num
  have habs1 : Complex.abs (vec (0.1 : ℚ) 0 + vec (0.3 : ℚ) 0) =
      (((2 : ℚ)/5 : ℚ) : ℝ) := by
    rw [vec_phase_zero, vec_phase_zero, ← Complex.ofReal_add,
      Complex.abs_ofReal]
    rw [show ((0.1 : ℚ) : ℝ) + ((0.3 : ℚ) : ℝ) = (((2 : ℚ)/5 : ℚ) : ℝ) by
      push_cast
      norm_num]
    rw [abs_of_nonneg (by positivity)]
  have habs2 : Complex.abs (vec (0.1 : ℚ) 0 +
      vec (0.3 : ℚ) 0 * ((0.5 : ℝ) : ℂ)) = (((1 : ℚ)/4 : ℚ) : ℝ) := by
    rw [vec_phase_zero, hmul, ← Complex.ofReal_add, Complex.abs_ofReal]
    rw [show ((0.1 : ℚ) : ℝ) + (((3 : ℚ)/20 : ℚ) : ℝ) = (((1 : ℚ)/4 : ℚ) : ℝ) by
      push_cast
      norm_num]
    rw [abs_of_nonneg (by positivity)]
  have habs3 : Complex.abs (vec (0.3 : ℚ) 180 +
      vec (0.3 : ℚ) 0 * ((0.5 : ℝ) : ℂ)) = (((3 : ℚ)/20 : ℚ) : ℝ) := by
    rw [vec_phase_180, hmul, ← Complex.ofReal_add, Complex.abs_ofReal]
    rw [show -((0.3 : ℚ) : ℝ) + (((3 : ℚ)/20 : ℚ) : ℝ) =
        (((-3 : ℚ)/20 : ℚ) : ℝ) by
      push_cast
      norm_num]
    rw [abs_of_nonpos (by norm_num), show -((((-3 : ℚ)/20 : ℚ)) : ℝ) =
      ((((3 : ℚ)/20 : ℚ)) : ℝ) by push_cast; norm_num]
  rw [habs1, habs2, habs3]
  rw [if_pos (show ((cfgW.ground_ips_limit : ℚ) : ℝ) < (((2 : ℚ)/5 : ℚ) : ℝ) by
    rw [show cfgW.ground_ips_limit = (0.15 : ℚ) from rfl]
    exact_mod_cast (by norm_num : (0.15 : ℚ) < (2 : ℚ)/5))]
  rw [fmtFixedR_ratCast, fmtFixedR_ratCast, fmtFixedR_ratCast]
  norm_num [cfgW, fmtFixed, fmtNum, pyRound, pyInt, pymod, round_to,
    deg_to_clock, hub_split_hint, abs, max_def]
  rfl

theorem C7_load_and_purity_witness :
    load_cfg ⟨[("ground_ips_limit", some (3 / 20))]⟩ =
      .ok ⟨[("ground_ips_limit", some (3 / 20))]⟩ ∧
    step_summaries runsJunk cfgW = step_summaries ([] : RunSet) cfgW :=
  ⟨C7_load_and_purity.1 _,
   C7_load_and_purity.2 runsJunk ([] : RunSet) cfgW (by decide)⟩

end RADS
